import Mathlib

/-!
Verification of the OpalPixel invoicing core: a shallow embedding of the
numbering service, line-item calculator, and invoice lifecycle handlers
(both the JSON API variants in `app/api/invoices.py` and the web-route
variants in `app/invoices/routes.py`, whose logic coincides with the
legacy `app.py` handlers), together with theorems about them.

Modelling conventions:
* Python floats (prices, amounts, tax rates) are modelled as `ℚ`;
  quantities (`int(...)` in Python) as `ℤ`.
* MongoDB documents are Lean structures; the store is a `DB` record of
  lists.  `save` on an existing document replaces the list entry with the
  same id; inserting appends.
* `request.form.get(k)` is an `Option String` (`none` when the field is
  absent); string fields already coerced with `or ""` are plain `String`.
* `datetime` values are reduced to a `Date` record; malformed-date error
  paths (`strptime` failures) are not modelled, dates arrive parsed.
* The random `uuid4().hex[:8]` suffix is modelled by an explicit `Nat`
  parameter rendered as 8 uppercase hex digits.
* `mongoengine`'s `required=True` check on `Invoice.client_name` (the one
  required string field a handler can set to `None`) is modelled in the
  web `create`/`edit` handlers, which can reach `save` with a `None`
  name; the API handlers keep the field set and need no such check.
-/

namespace OpalPixel

/-- Calendar date; only the year feeds the numbering service. -/
structure Date where
  year : Nat
  month : Nat
  day : Nat
deriving DecidableEq, Repr

/-- `app/models.py InvoiceItem` — embedded line item. -/
structure InvoiceItem where
  description : String
  quantity : Int
  unit_price : ℚ
  total : ℚ
deriving DecidableEq, Repr

/-- `app/models.py Invoice` — client invoice with embedded items. -/
structure Invoice where
  id : Nat
  invoice_number : String
  client_name : Option String
  client_email : Option String
  client_phone : Option String
  client_address : Option String
  amount : ℚ
  tax_rate : ℚ
  tax_amount : ℚ
  status : String
  due_date : Option Date
  user_id : Nat
  items : List InvoiceItem
deriving DecidableEq, Repr

/-- `app/models.py Receipt` — payment receipt linked to an invoice. -/
structure Receipt where
  invoice_id : Nat
  amount_paid : ℚ
  receipt_number : String
deriving DecidableEq, Repr

/-- The two persisted collections the lifecycle handlers touch. -/
structure DB where
  invoices : List Invoice
  receipts : List Receipt
deriving DecidableEq, Repr

/-- The authenticated identity (`current_user`): id and role string. -/
structure User where
  id : Nat
  role : String
deriving DecidableEq, Repr

/-- `Invoice.objects(id=...).first()` — lookup by id. -/
def findInvoice (db : DB) (iid : Nat) : Option Invoice :=
  db.invoices.find? (fun i => i.id = iid)

/-- `invoice.save()` for an existing document: replace the entry with the
same id. -/
def saveInvoice (db : DB) (inv : Invoice) : DB :=
  { db with invoices := db.invoices.map (fun i => if i.id = inv.id then inv else i) }

/-- Python `str.strip()`: drop whitespace from both ends.  (Modelled on
`List Char` because `String.trim` is defined by well-founded recursion
on byte positions and does not reduce in the kernel.) -/
def pyStrip (s : String) : String :=
  String.mk (((s.data.dropWhile Char.isWhitespace).reverse.dropWhile
    Char.isWhitespace).reverse)

/-- `(s or "").strip() or None` — the API pattern normalising optional
contact fields: strip, and store `None` when blank. -/
def strippedOrNone (s : Option String) : Option String :=
  let t := pyStrip (s.getD "")
  if t = "" then none else some t

/-! ## Line-item calculator -/

/-- A raw JSON line-item entry as the API reads it: description via
`(entry.get("description") or "")`, quantity via `int(entry.get("quantity", 0))`,
unit price via `float(entry.get("unit_price", 0))`. -/
structure RawItem where
  description : String
  quantity : Int
  unit_price : ℚ
deriving DecidableEq, Repr

/-- One iteration of the API item loop (`app/api/invoices.py` lines
120–128 and 193–203): strip the description, skip the entry when the
stripped description is empty or quantity ≤ 0 or price ≤ 0, otherwise
build the item with `total = quantity * unit_price`. -/
def mkItemApi (e : RawItem) : Option InvoiceItem :=
  let desc := pyStrip e.description
  if desc = "" ∨ e.quantity ≤ 0 ∨ e.unit_price ≤ 0 then none
  else some ⟨desc, e.quantity, e.unit_price, (e.quantity : ℚ) * e.unit_price⟩

/-- The retained items of an API create/update request. -/
def itemsApi (l : List RawItem) : List InvoiceItem :=
  l.filterMap mkItemApi

/-- A raw web-form line entry: `descriptions[i]` is always a string
(possibly empty); `quantities[i]` / `prices[i]` are `none` when the form
field is the empty string, mirroring
`int(quantities[i]) if quantities[i] else 0`. -/
structure WebEntry where
  description : String
  quantity : Option Int
  unit_price : Option ℚ
deriving DecidableEq, Repr

/-- One iteration of the web-form item loop (`app/invoices/routes.py`
lines 46–54 and 141–154, identically `app.py`): the only filter is
`if descriptions[i]:` — a truthy (non-empty) description; empty quantity
or price fields default to 0 and the entry is still retained. -/
def mkItemWeb (e : WebEntry) : Option InvoiceItem :=
  if e.description = "" then none
  else
    let qty := e.quantity.getD 0
    let price := e.unit_price.getD 0
    some ⟨e.description, qty, price, (qty : ℚ) * price⟩

/-- The retained items of a web create/edit form. -/
def itemsWeb (l : List WebEntry) : List InvoiceItem :=
  l.filterMap mkItemWeb

/-- The running `subtotal` accumulated by every handler: the sum of the
retained items' line totals. -/
def subtotalOf (items : List InvoiceItem) : ℚ :=
  (items.map (fun it => it.total)).sum

/-! ## Invoice numbering service (`app/services/invoice_service.py`) -/

/-- Two-digit zero-padded rendering of `year % 100` — `strftime("%y")`. -/
def yearSuffix (year : Nat) : String :=
  let n := year % 100
  String.mk [Char.ofNat (48 + n / 10), Char.ofNat (48 + n % 10)]

/-- `f"{sequence:04d}"` — decimal, left-padded with zeros to width ≥ 4. -/
def pad4 (n : Nat) : String :=
  let s := Nat.repr n
  String.mk (List.replicate (4 - s.length) '0') ++ s

/-- `format_invoice_number`: `f"OPL-{sequence:04d}-{year_suffix}"`. -/
def format_invoice_number (sequence : Nat) (d : Date) : String :=
  "OPL-" ++ pad4 sequence ++ "-" ++ yearSuffix d.year

/-- Whether a stored invoice number matches the year-scoped regex
`^OPL-.*-{yy}$` (with `yy` two characters): prefix `OPL-`, suffix
`-yy`, and length at least 7 so prefix and suffix do not overlap. -/
def matchesYearPattern (yy : String) (s : String) : Bool :=
  decide (s.data.take 4 = ['O', 'P', 'L', '-'])
    && decide (s.data.drop (s.data.length - 3) = '-' :: yy.data)
    && decide (7 ≤ s.data.length)

/-- `generate_invoice_number`: count the invoices whose number matches
the year pattern and format `count + 1`. -/
def generate_invoice_number (db : DB) (d : Date) : String :=
  let yy := yearSuffix d.year
  let count := db.invoices.countP (fun i => matchesYearPattern yy i.invoice_number)
  format_invoice_number (count + 1) d

/-! ## Receipt numbers -/

/-- One uppercase hex digit (input reduced mod 16). -/
def hexDigit (n : Nat) : Char :=
  if n % 16 < 10 then Char.ofNat (48 + n % 16) else Char.ofNat (55 + n % 16)

/-- `uuid.uuid4().hex[:8].upper()` — the 8 uppercase hex characters of
the random value `n` (big-endian nibbles of `n % 16^8`). -/
def hex8 (n : Nat) : String :=
  String.mk ((List.range 8).map (fun i => hexDigit (n / 16 ^ (7 - i))))

/-- `f"REC-{...}"` — the receipt number built from random value `n`. -/
def receiptNumber (n : Nat) : String :=
  "REC-" ++ hex8 n

/-- Characters allowed after `REC-`: uppercase hexadecimal. -/
def isUpperHex (c : Char) : Bool :=
  (decide ('0' ≤ c) && decide (c ≤ '9')) || (decide ('A' ≤ c) && decide (c ≤ 'F'))

/-! ## API handlers (`app/api/invoices.py`) -/

/-- A JSON API response: `ok` with the payload, or `err` with the HTTP
status code and the error message. -/
inductive ApiResult (α : Type) where
  | ok (val : α)
  | err (code : Nat) (msg : String)
deriving DecidableEq

/-- The JSON body of `POST /api/invoices`, with `get`-defaults applied:
`client_name` etc. are the raw values of `data.get(...) or ""`;
`due_date` is the parsed date (or the current date when absent);
`tax_rate` is `float(data.get("tax_rate", 0))`. -/
structure CreateReq where
  client_name : String
  client_email : String
  client_phone : String
  client_address : String
  due_date : Date
  tax_rate : ℚ
  items : List RawItem
deriving DecidableEq, Repr

/-- `create_invoice` (`app/api/invoices.py` lines 84–152): validate the
client name, require a non-empty raw item list, build and filter line
items, reject when none survive, compute tax and total, mint the
year-scoped invoice number and insert the new Pending invoice. -/
def api_create_invoice (u : User) (req : CreateReq) (db : DB) (newId : Nat) :
    ApiResult Invoice × DB :=
  let client_name := pyStrip req.client_name
  if client_name = "" then (.err 400 "client_name is required", db)
  else if req.items = [] then (.err 400 "At least one item is required", db)
  else
    let items := itemsApi req.items
    if items = [] then (.err 400 "No valid items provided", db)
    else
      let subtotal := subtotalOf items
      let tax_amount := subtotal * (req.tax_rate / 100)
      let total_amount := subtotal + tax_amount
      let inv : Invoice :=
        { id := newId
          invoice_number := generate_invoice_number db req.due_date
          client_name := some client_name
          client_email := strippedOrNone (some req.client_email)
          client_phone := strippedOrNone (some req.client_phone)
          client_address := strippedOrNone (some req.client_address)
          amount := total_amount
          tax_rate := req.tax_rate
          tax_amount := tax_amount
          status := "Pending"
          due_date := some req.due_date
          user_id := u.id
          items := items }
      (.ok inv, { db with invoices := db.invoices ++ [inv] })

/-- The JSON body of `PUT/PATCH /api/invoices/<id>`: `none` means the key
is absent from the payload.  `items = some l` models a present `items`
key, with `data["items"] or []` already applied. -/
structure UpdateReq where
  client_name : Option String
  client_email : Option String
  client_phone : Option String
  client_address : Option String
  due_date : Option Date
  items : Option (List RawItem)
  tax_rate : Option ℚ
deriving DecidableEq, Repr

/-- The field-by-field patch of `update_invoice` (lines 173–185): each
contact field is touched only when its key is present; a blank
`client_name` falls back to the stored one; blank contact fields store
`None`. -/
def patchContact (inv : Invoice) (req : UpdateReq) : Invoice :=
  { inv with
      client_name := match req.client_name with
        | some s => if pyStrip s = "" then inv.client_name else some (pyStrip s)
        | none => inv.client_name
      client_email := match req.client_email with
        | some s => strippedOrNone (some s)
        | none => inv.client_email
      client_phone := match req.client_phone with
        | some s => strippedOrNone (some s)
        | none => inv.client_phone
      client_address := match req.client_address with
        | some s => strippedOrNone (some s)
        | none => inv.client_address
      due_date := match req.due_date with
        | some d => some d
        | none => inv.due_date }

/-- The items/tax recomputation of `update_invoice` (lines 188–214): if
the `items` key is present, replace the list wholesale with the filtered
entries and recompute tax and amount (with `tax_rate` defaulting to the
stored rate); otherwise, if `tax_rate` is present, recompute from the
existing items; otherwise leave the financial fields alone. -/
def recomputeItems (inv : Invoice) (req : UpdateReq) : Invoice :=
  match req.items with
  | some entries =>
      let tax_rate := req.tax_rate.getD inv.tax_rate
      let newItems := itemsApi entries
      let subtotal := subtotalOf newItems
      let tax_amount := subtotal * (tax_rate / 100)
      { inv with items := newItems, tax_rate := tax_rate,
                 tax_amount := tax_amount, amount := subtotal + tax_amount }
  | none =>
      match req.tax_rate with
      | some r =>
          let subtotal := subtotalOf inv.items
          let tax_amount := subtotal * (r / 100)
          { inv with tax_rate := r, tax_amount := tax_amount,
                     amount := subtotal + tax_amount }
      | none => inv

/-- `update_invoice` (`app/api/invoices.py` lines 160–217): 404 when the
invoice is missing, 403 for a non-admin non-owner, 400 when the invoice
is Paid; otherwise patch contact fields, recompute items/tax, save. -/
def api_update_invoice (u : User) (iid : Nat) (req : UpdateReq) (db : DB) :
    ApiResult Invoice × DB :=
  match findInvoice db iid with
  | none => (.err 404 "Invoice not found", db)
  | some inv =>
    if u.role ≠ "admin" ∧ inv.user_id ≠ u.id then (.err 403 "Access denied", db)
    else if inv.status = "Paid" then (.err 400 "Cannot edit a paid invoice", db)
    else
      let inv2 := recomputeItems (patchContact inv req) req
      (.ok inv2, saveInvoice db inv2)

/-- `delete_invoice` (`app/api/invoices.py` lines 225–239): after the
same existence/ownership/Paid checks, delete the linked receipts and the
invoice. -/
def api_delete_invoice (u : User) (iid : Nat) (db : DB) :
    ApiResult String × DB :=
  match findInvoice db iid with
  | none => (.err 404 "Invoice not found", db)
  | some inv =>
    if u.role ≠ "admin" ∧ inv.user_id ≠ u.id then (.err 403 "Access denied", db)
    else if inv.status = "Paid" then (.err 400 "Cannot delete a paid invoice", db)
    else
      (.ok "Invoice deleted",
       { invoices := db.invoices.filter (fun i => ¬ i.id = inv.id),
         receipts := db.receipts.filter (fun r => ¬ r.invoice_id = inv.id) })

/-- `pay_invoice` (`app/api/invoices.py` lines 247–272): 400 when already
Paid; otherwise set status Paid, save, and insert a receipt snapshotting
the invoice amount, numbered from the random value `rand`. -/
def api_pay_invoice (u : User) (iid : Nat) (db : DB) (rand : Nat) :
    ApiResult (Invoice × Receipt) × DB :=
  match findInvoice db iid with
  | none => (.err 404 "Invoice not found", db)
  | some inv =>
    if u.role ≠ "admin" ∧ inv.user_id ≠ u.id then (.err 403 "Access denied", db)
    else if inv.status = "Paid" then (.err 400 "Invoice is already paid", db)
    else
      let inv2 := { inv with status := "Paid" }
      let db2 := saveInvoice db inv2
      let rcpt : Receipt :=
        { invoice_id := inv2.id, amount_paid := inv2.amount,
          receipt_number := receiptNumber rand }
      (.ok (inv2, rcpt), { db2 with receipts := db2.receipts ++ [rcpt] })

/-- `get_invoice` (`app/api/invoices.py` lines 68–76). -/
def api_get_invoice (u : User) (iid : Nat) (db : DB) : ApiResult Invoice :=
  match findInvoice db iid with
  | none => .err 404 "Invoice not found"
  | some inv =>
    if u.role ≠ "admin" ∧ inv.user_id ≠ u.id then .err 403 "Access denied"
    else .ok inv

/-! ## Web-route handlers (`app/invoices/routes.py`, identically the
legacy handlers in `app.py`) -/

/-- A web response: the flash messages emitted and the redirect target
(or rendered page). -/
structure WebResp where
  flashes : List String
  target : String
deriving DecidableEq, Repr

/-- The create/edit form: `request.form.get` fields are `Option String`
(`none` when absent); `due_date` is `none` when `date_str` is falsy,
otherwise the parsed date; the three parallel item field lists are
modelled as a single list of `WebEntry` rows; `tax_rate` is
`float(request.form.get("tax_rate") or 0)`. -/
structure WebForm where
  client_name : Option String
  client_email : Option String
  client_phone : Option String
  client_address : Option String
  due_date : Option Date
  entries : List WebEntry
  tax_rate : ℚ
deriving DecidableEq, Repr

/-- `mongoengine` raises a `ValidationError` at `save()` when a
`required=True` field is `None`; `client_name` is the only required
string field the web handlers can set to `None`. -/
def saveAllowed (inv : Invoice) : Bool :=
  inv.client_name.isSome

/-- Web `create` POST (`app/invoices/routes.py` lines 31–78, identically
`app.py create_invoice`): no client-name validation and no minimum-item
validation — items are filtered only by truthy description, totals are
computed (an empty retained list gives amount 0), and the invoice is
saved unconditionally; `save` itself only rejects a `None` client name. -/
def web_create (u : User) (form : WebForm) (today : Date) (db : DB) (newId : Nat) :
    Except String (WebResp × DB) :=
  let due := form.due_date.getD today
  let items := itemsWeb form.entries
  let subtotal := subtotalOf items
  let tax_amount := subtotal * (form.tax_rate / 100)
  let inv : Invoice :=
    { id := newId
      invoice_number := generate_invoice_number db due
      client_name := form.client_name
      client_email := form.client_email
      client_phone := form.client_phone
      client_address := form.client_address
      amount := subtotal + tax_amount
      tax_rate := form.tax_rate
      tax_amount := tax_amount
      status := "Pending"
      due_date := some due
      user_id := u.id
      items := items }
  if saveAllowed inv then
    .ok (⟨["Invoice created successfully!"],
          if u.role = "admin" then "admin.dashboard" else "worker.dashboard"⟩,
         { db with invoices := db.invoices ++ [inv] })
  else .error "mongoengine ValidationError: client_name is required"

/-- Web `edit` POST (`app/invoices/routes.py` lines 110–163): after the
not-found / ownership / Paid guards, every contact field is overwritten
from the form (absent fields become `None`), the due date is kept when
the field is blank, and the item list is always rebuilt from the form
rows and replaced wholesale, with totals recomputed. -/
def web_edit (u : User) (iid : Nat) (form : WebForm) (db : DB) :
    Except String (WebResp × DB) :=
  match findInvoice db iid with
  | none => .ok (⟨["Invoice not found."], "admin.dashboard"⟩, db)
  | some inv =>
    if u.role ≠ "admin" ∧ inv.user_id ≠ u.id then
      .ok (⟨["You can only edit your own invoices."], "worker.dashboard"⟩, db)
    else if inv.status = "Paid" then
      .ok (⟨["Cannot edit a paid invoice."], "invoices.view"⟩, db)
    else
      let newItems := itemsWeb form.entries
      let subtotal := subtotalOf newItems
      let tax_amount := subtotal * (form.tax_rate / 100)
      let inv2 : Invoice :=
        { inv with
            client_name := form.client_name
            client_email := form.client_email
            client_phone := form.client_phone
            client_address := form.client_address
            due_date := match form.due_date with
              | some d => some d
              | none => inv.due_date
            items := newItems
            tax_rate := form.tax_rate
            tax_amount := tax_amount
            amount := subtotal + tax_amount }
      if saveAllowed inv2 then
        .ok (⟨["Invoice updated successfully!"], "invoices.view"⟩,
             saveInvoice db inv2)
      else .error "mongoengine ValidationError: client_name is required"

/-- Web `pay` (`app/invoices/routes.py` lines 173–196, identically
`app.py pay_invoice`): when the invoice is not yet Paid, mark it Paid,
save, and insert a receipt; when it is already Paid, skip that block
entirely — no flash, no receipt — and redirect to the dashboard. -/
def web_pay (u : User) (iid : Nat) (db : DB) (rand : Nat) : WebResp × DB :=
  match findInvoice db iid with
  | none => (⟨["Invoice not found."], "admin.dashboard"⟩, db)
  | some inv =>
    if u.role ≠ "admin" ∧ inv.user_id ≠ u.id then
      (⟨["You can only manage your own invoices."], "worker.dashboard"⟩, db)
    else
      let step : List String × DB :=
        if inv.status ≠ "Paid" then
          let inv2 := { inv with status := "Paid" }
          let db2 := saveInvoice db inv2
          let rcpt : Receipt :=
            { invoice_id := inv2.id, amount_paid := inv2.amount,
              receipt_number := receiptNumber rand }
          (["Invoice paid and receipt generated!"],
           { db2 with receipts := db2.receipts ++ [rcpt] })
        else ([], db)
      (⟨step.1, if u.role = "admin" then "admin.dashboard" else "worker.dashboard"⟩,
       step.2)

/-- Web `view` (`app/invoices/routes.py` lines 92–102). -/
def web_view (u : User) (iid : Nat) (db : DB) : WebResp :=
  match findInvoice db iid with
  | none => ⟨["Invoice not found."], "admin.dashboard"⟩
  | some inv =>
    if u.role ≠ "admin" ∧ inv.user_id ≠ u.id then
      ⟨["You can only view your own invoices."], "worker.dashboard"⟩
    else ⟨[], "invoice_detail.html"⟩

deriving instance DecidableEq for Except

/-! ## Specification predicates -/

/-- The derived-field consistency invariant of §3 of the spec: each
item's total is `quantity * unit_price`, `tax_amount` is the subtotal
times `tax_rate / 100`, and `amount` is subtotal plus tax. -/
def invariantC2 (inv : Invoice) : Prop :=
  (∀ it ∈ inv.items, it.total = (it.quantity : ℚ) * it.unit_price) ∧
  inv.tax_amount = subtotalOf inv.items * (inv.tax_rate / 100) ∧
  inv.amount = subtotalOf inv.items + inv.tax_amount

/-- A receipt number of the documented shape: `REC-` followed by exactly
8 uppercase hexadecimal characters. -/
def recFormatOk (s : String) : Prop :=
  ∃ t, s = "REC-" ++ t ∧ t.length = 8 ∧ ∀ c ∈ t.data, isUpperHex c = true

/-- The identity passes the ownership check of every handler. -/
def authorized (u : User) (inv : Invoice) : Prop :=
  u.role = "admin" ∨ inv.user_id = u.id

/-! ## Helper lemmas -/

lemma mkItemApi_total {e : RawItem} {it : InvoiceItem}
    (h : mkItemApi e = some it) :
    it.total = (it.quantity : ℚ) * it.unit_price := by
  simp only [mkItemApi] at h
  split at h
  · exact absurd h (by simp)
  · simp only [Option.some.injEq] at h
    subst h
    rfl

lemma itemsApi_total {l : List RawItem} {it : InvoiceItem}
    (h : it ∈ itemsApi l) :
    it.total = (it.quantity : ℚ) * it.unit_price := by
  unfold itemsApi at h
  rcases List.mem_filterMap.mp h with ⟨e, _, he⟩
  exact mkItemApi_total he

lemma mkItemWeb_total {e : WebEntry} {it : InvoiceItem}
    (h : mkItemWeb e = some it) :
    it.total = (it.quantity : ℚ) * it.unit_price := by
  simp only [mkItemWeb] at h
  split at h
  · exact absurd h (by simp)
  · simp only [Option.some.injEq] at h
    subst h
    rfl

lemma itemsWeb_total {l : List WebEntry} {it : InvoiceItem}
    (h : it ∈ itemsWeb l) :
    it.total = (it.quantity : ℚ) * it.unit_price := by
  unfold itemsWeb at h
  rcases List.mem_filterMap.mp h with ⟨e, _, he⟩
  exact mkItemWeb_total he

lemma hexDigit_isUpperHex (n : Nat) : isUpperHex (hexDigit n) = true := by
  unfold hexDigit isUpperHex
  have h16 : n % 16 < 16 := Nat.mod_lt _ (by norm_num)
  revert h16
  generalize n % 16 = k
  intro h16
  interval_cases k <;> decide

lemma hex8_length (n : Nat) : (hex8 n).length = 8 := by
  simp [hex8, String.length]

lemma hex8_chars (n : Nat) : ∀ c ∈ (hex8 n).data, isUpperHex c = true := by
  intro c hc
  unfold hex8 at hc
  rcases List.mem_map.mp hc with ⟨i, _, rfl⟩
  exact hexDigit_isUpperHex _

lemma receiptNumber_format (n : Nat) : recFormatOk (receiptNumber n) :=
  ⟨hex8 n, rfl, hex8_length n, hex8_chars n⟩

lemma format_invoice_number_data (k : Nat) (d : Date) :
    (format_invoice_number k d).data
      = ("OPL-".data ++ (pad4 k).data) ++ ("-".data ++ (yearSuffix d.year).data) := by
  unfold format_invoice_number
  simp [String.data_append, List.append_assoc]

lemma matchesYearPattern_format (k : Nat) (d : Date) :
    matchesYearPattern (yearSuffix d.year) (format_invoice_number k d) = true := by
  unfold matchesYearPattern
  rw [format_invoice_number_data]
  have hA : ("OPL-".data).length = 4 := rfl
  have hD : ("-".data).length = 1 := rfl
  have hY : ((yearSuffix d.year).data).length = 2 := rfl
  simp only [Bool.and_eq_true, decide_eq_true_eq]
  refine ⟨⟨?_, ?_⟩, ?_⟩
  · rfl
  · have hsub :
        (("OPL-".data ++ (pad4 k).data) ++ ("-".data ++ (yearSuffix d.year).data)).length - 3
          = ("OPL-".data ++ (pad4 k).data).length := by
      simp only [List.length_append, hA, hD, hY]
      omega
    rw [hsub, List.drop_left]
    rfl
  · simp only [List.length_append, hA, hD, hY]
    omega

lemma findInvoice_id {db : DB} {iid : Nat} {inv : Invoice}
    (h : findInvoice db iid = some inv) : inv.id = iid := by
  have := List.find?_some h
  simpa using this

lemma findInvoice_mem {db : DB} {iid : Nat} {inv : Invoice}
    (h : findInvoice db iid = some inv) : inv ∈ db.invoices :=
  List.mem_of_find?_eq_some h

lemma find?_map_update {iid : Nat} (inv2 : Invoice) (hid : inv2.id = iid) :
    ∀ (l : List Invoice) (inv : Invoice),
      l.find? (fun i => i.id = iid) = some inv →
      (l.map (fun i => if i.id = inv2.id then inv2 else i)).find?
          (fun i => i.id = iid) = some inv2 := by
  intro l
  induction l with
  | nil => intro inv h; simp at h
  | cons a t ih =>
    intro inv h
    by_cases ha : a.id = iid
    · simp only [List.map_cons, if_pos (ha.trans hid.symm)]
      rw [List.find?_cons_of_pos]
      simp [hid]
    · rw [List.find?_cons_of_neg _ (by simp [ha])] at h
      have hne : ¬ a.id = inv2.id := fun hc => ha (Eq.trans hc hid)
      simp only [List.map_cons, if_neg hne]
      rw [List.find?_cons_of_neg _ (by simp [ha])]
      exact ih inv h

lemma findInvoice_saveInvoice {db : DB} {iid : Nat} {inv inv2 : Invoice}
    (hfind : findInvoice db iid = some inv) (hid : inv2.id = iid) :
    findInvoice (saveInvoice db inv2) iid = some inv2 := by
  unfold findInvoice saveInvoice
  exact find?_map_update inv2 hid db.invoices inv hfind

lemma saveInvoice_receipts (db : DB) (inv : Invoice) :
    (saveInvoice db inv).receipts = db.receipts := rfl

/-- API edits never touch the receipts collection. -/
lemma api_update_receipts (u : User) (iid : Nat) (req : UpdateReq) (db : DB) :
    (api_update_invoice u iid req db).2.receipts = db.receipts := by
  unfold api_update_invoice
  cases findInvoice db iid with
  | none => rfl
  | some inv =>
    dsimp only
    split
    · rfl
    · split
      · rfl
      · rfl

/-- Web edits never touch the receipts collection. -/
lemma web_edit_receipts (u : User) (iid : Nat) (form : WebForm) (db : DB)
    (r : WebResp) (db2 : DB) (h : web_edit u iid form db = .ok (r, db2)) :
    db2.receipts = db.receipts := by
  unfold web_edit at h
  cases hf : findInvoice db iid with
  | none => rw [hf] at h; injection h with h; cases h; rfl
  | some inv =>
    rw [hf] at h
    dsimp only at h
    split at h
    · injection h with h; cases h; rfl
    · split at h
      · injection h with h; cases h; rfl
      · split at h
        · injection h with h; cases h; rfl
        · cases h

/-! ## Claim theorems -/

/-- C3: for every target date the generated invoice number is
`OPL-{sequence:04d}-{YY}` with `YY` the two-digit year suffix and
`sequence = 1 + count of existing invoices matching OPL-*-{YY}`; the
generated number itself matches the year pattern; and when no existing
invoice matches the year suffix (in particular at the start of a new
year, however many prior-year invoices exist) the sequence restarts at
1. -/
theorem C3_year_scoped_numbering (db : DB) (d : Date) :
    generate_invoice_number db d
      = format_invoice_number
          (1 + db.invoices.countP
            (fun i => matchesYearPattern (yearSuffix d.year) i.invoice_number)) d
    ∧ matchesYearPattern (yearSuffix d.year) (generate_invoice_number db d) = true
    ∧ ((∀ inv ∈ db.invoices,
          matchesYearPattern (yearSuffix d.year) inv.invoice_number = false) →
        generate_invoice_number db d = "OPL-0001-" ++ yearSuffix d.year) := by
  refine ⟨?_, ?_, ?_⟩
  · simp only [generate_invoice_number, Nat.add_comm]
  · exact matchesYearPattern_format _ _
  · intro hfresh
    simp only [generate_invoice_number]
    have hc : db.invoices.countP
        (fun i => matchesYearPattern (yearSuffix d.year) i.invoice_number) = 0 := by
      rw [List.countP_eq_zero]
      intro a ha
      simp [hfresh a ha]
    rw [hc]
    rfl

/-- Witness for C3 at a concrete state: with no invoices stored, the
number generated for 2026-03-01 is `OPL-0001-26`. -/
theorem C3_year_scoped_numbering_witness :
    generate_invoice_number ⟨[], []⟩ ⟨2026, 3, 1⟩ = "OPL-0001-26" := by
  have h := (C3_year_scoped_numbering ⟨[], []⟩ ⟨2026, 3, 1⟩).2.2
    (by intro inv hi; cases hi)
  rw [h]
  rfl

/-- C1 counterexample: the claim says that in the web-route variant of
Create an entry with quantity 0 is dropped; in fact the web `create`
filters only on a truthy description, so at this concrete input the
entry with description "Widget" and quantity 0 is retained in the
persisted invoice (the created invoice's item list holds exactly the
pair ("Widget", 0)). -/
theorem C1_counterexample :
    (web_create ⟨7, "worker"⟩
        ⟨some "Acme", none, none, none, some ⟨2026, 3, 1⟩,
         [⟨"Widget", some 0, some 5⟩], 0⟩
        ⟨2026, 3, 1⟩ ⟨[], []⟩ 1).toOption.map
      (fun p => p.2.invoices.map
        (fun i => i.items.map (fun it => (it.description, it.quantity))))
      = some [[("Widget", 0)]] := by
  decide

/-- C1 (amended): the stated retention policy (kept iff stripped
description non-empty AND quantity > 0 AND unit price > 0, failures
silently dropped) holds for the API variant of Create; the web-route
variant instead retains an entry iff its description is non-empty (not
stripped), performing no quantity or price check, with empty
quantity/price form fields defaulting to 0.  In both variants the
created invoice's item list is exactly the filtered entries, and
entries are dropped without any error. -/
theorem C1_retention_policy :
    (∀ e : RawItem, (mkItemApi e).isSome = true ↔
      (pyStrip e.description ≠ "" ∧ 0 < e.quantity ∧ 0 < e.unit_price))
    ∧ (∀ w : WebEntry, (mkItemWeb w).isSome = true ↔ w.description ≠ "")
    ∧ (∀ u req db n, pyStrip req.client_name ≠ "" → req.items ≠ [] →
        itemsApi req.items ≠ [] →
        ∃ inv, api_create_invoice u req db n
            = (.ok inv, { db with invoices := db.invoices ++ [inv] })
          ∧ inv.items = itemsApi req.items)
    ∧ (∀ u form today db n, form.client_name.isSome = true →
        ∃ inv r, web_create u form today db n
            = .ok (r, { db with invoices := db.invoices ++ [inv] })
          ∧ inv.items = itemsWeb form.entries) := by
  refine ⟨?_, ?_, ?_, ?_⟩
  · intro e
    by_cases h : pyStrip e.description = "" ∨ e.quantity ≤ 0 ∨ e.unit_price ≤ 0
    · have hnone : mkItemApi e = none := by simp [mkItemApi, h]
      rw [hnone]
      simp only [Option.isSome_none, Bool.false_eq_true, false_iff]
      rintro ⟨h1, h2, h3⟩
      rcases h with h | h | h
      · exact h1 h
      · exact absurd h2 (not_lt.mpr h)
      · exact absurd h3 (not_lt.mpr h)
    · have hsome : (mkItemApi e).isSome = true := by simp [mkItemApi, h]
      rw [hsome]
      simp only [true_iff]
      push_neg at h
      exact h
  · intro w
    by_cases h : w.description = ""
    · simp [mkItemWeb, h]
    · simp [mkItemWeb, h]
  · intro u req db n hname hraw hfiltered
    simp only [api_create_invoice]
    rw [if_neg hname, if_neg hraw, if_neg hfiltered]
    exact ⟨_, rfl, rfl⟩
  · intro u form today db n hname
    simp only [web_create, saveAllowed]
    rw [if_pos hname]
    exact ⟨_, _, rfl, rfl⟩

/-- Witness for C1 at concrete inputs: the API retains a valid entry,
and an API Create call with one valid entry succeeds with the filtered
item list. -/
theorem C1_retention_policy_witness :
    ((mkItemApi ⟨"Service", 2, 100⟩).isSome = true ↔
      (pyStrip "Service" ≠ "" ∧ 0 < (2 : ℤ) ∧ 0 < (100 : ℚ)))
    ∧ (∃ inv, api_create_invoice ⟨1, "admin"⟩
          ⟨"Acme", "", "", "", ⟨2026, 3, 1⟩, 0, [⟨"Service", 2, 100⟩]⟩
          ⟨[], []⟩ 1
          = (.ok inv, ⟨[] ++ [inv], []⟩)
        ∧ inv.items = itemsApi [⟨"Service", 2, 100⟩]) :=
  ⟨C1_retention_policy.1 ⟨"Service", 2, 100⟩,
   C1_retention_policy.2.2.1 ⟨1, "admin"⟩
     ⟨"Acme", "", "", "", ⟨2026, 3, 1⟩, 0, [⟨"Service", 2, 100⟩]⟩
     ⟨[], []⟩ 1 (by decide) (by decide) (by decide)⟩

/-- Every invoice present after a save via `saveInvoice` is either an
old invoice or the saved one. -/
lemma mem_saveInvoice {db : DB} {inv2 inv : Invoice}
    (h : inv ∈ (saveInvoice db inv2).invoices) :
    inv ∈ db.invoices ∨ inv = inv2 := by
  unfold saveInvoice at h
  rcases List.mem_map.mp h with ⟨i, hi, heq⟩
  by_cases hc : i.id = inv2.id
  · right; rw [if_pos hc] at heq; exact heq.symm
  · left; rw [if_neg hc] at heq; exact heq ▸ hi

/-- The contact-field patch of the API update leaves the financial
fields and the item list untouched, so it preserves the totals
invariant. -/
lemma invariantC2_recompute (inv : Invoice) (req : UpdateReq)
    (h : invariantC2 inv) :
    invariantC2 (recomputeItems (patchContact inv req) req) := by
  unfold recomputeItems
  rcases hri : req.items with _ | entries
  · rcases hrt : req.tax_rate with _ | r
    · exact ⟨h.1, h.2.1, h.2.2⟩
    · exact ⟨fun it hit => h.1 it hit, rfl, rfl⟩
  · exact ⟨fun it hit => itemsApi_total hit, rfl, rfl⟩

/-- C2: every invoice produced or modified by Create or Edit (API and
web variants) has consistent derived fields: each stored item's total is
`quantity * unit_price`, `tax_amount` is the item-total subtotal times
`tax_rate / 100`, and `amount` is subtotal plus tax.  For the API Edit,
which can leave the financial fields untouched (no `items` and no
`tax_rate` key), the invariant is preserved from the stored invoice. -/
theorem C2_derived_totals :
    (∀ u req db n inv db2,
        api_create_invoice u req db n = (.ok inv, db2) → invariantC2 inv)
    ∧ (∀ u form today db n r db2,
        web_create u form today db n = .ok (r, db2) →
        ∀ inv ∈ db2.invoices, inv ∈ db.invoices ∨ invariantC2 inv)
    ∧ (∀ u iid req db inv2 db2,
        api_update_invoice u iid req db = (.ok inv2, db2) →
        (∀ inv0 ∈ db.invoices, invariantC2 inv0) →
        invariantC2 inv2)
    ∧ (∀ u iid form db r db2,
        web_edit u iid form db = .ok (r, db2) →
        ∀ inv ∈ db2.invoices, inv ∈ db.invoices ∨ invariantC2 inv) := by
  refine ⟨?_, ?_, ?_, ?_⟩
  · intro u req db n inv db2 h
    simp only [api_create_invoice] at h
    split at h
    · injection h with h1 _; exact ApiResult.noConfusion h1
    · split at h
      · injection h with h1 _; exact ApiResult.noConfusion h1
      · split at h
        · injection h with h1 _; exact ApiResult.noConfusion h1
        · injection h with h1 _
          injection h1 with h1
          subst h1
          exact ⟨fun it hit => itemsApi_total hit, rfl, rfl⟩
  · intro u form today db n r db2 h
    simp only [web_create, saveAllowed] at h
    split at h
    · injection h with h1
      injection h1 with _ h2
      subst h2
      intro inv hinv
      rcases List.mem_append.mp hinv with hl | hr
      · exact Or.inl hl
      · rcases List.mem_singleton.mp hr with rfl
        exact Or.inr ⟨fun it hit => itemsWeb_total hit, rfl, rfl⟩
    · cases h
  · intro u iid req db inv2 db2 h hall
    simp only [api_update_invoice] at h
    cases hf : findInvoice db iid with
    | none => rw [hf] at h; injection h with h1 _; exact ApiResult.noConfusion h1
    | some inv =>
      rw [hf] at h
      dsimp only at h
      split at h
      · injection h with h1 _; exact ApiResult.noConfusion h1
      · split at h
        · injection h with h1 _; exact ApiResult.noConfusion h1
        · injection h with h1 _
          injection h1 with h1
          subst h1
          exact invariantC2_recompute inv req (hall inv (findInvoice_mem hf))
  · intro u iid form db r db2 h
    simp only [web_edit] at h
    cases hf : findInvoice db iid with
    | none =>
      rw [hf] at h
      injection h with h1; cases h1
      intro inv hinv; exact Or.inl hinv
    | some inv =>
      rw [hf] at h
      dsimp only at h
      split at h
      · injection h with h1; cases h1
        intro inv hinv; exact Or.inl hinv
      · split at h
        · injection h with h1; cases h1
          intro inv hinv; exact Or.inl hinv
        · split at h
          · injection h with h1
            injection h1 with _ h2
            subst h2
            intro inv3 hinv3
            rcases mem_saveInvoice hinv3 with hl | rfl
            · exact Or.inl hl
            · exact Or.inr ⟨fun it hit => itemsWeb_total hit, rfl, rfl⟩
          · cases h

/-- Witness for C2 at a concrete state: a field-free API update of a
stored consistent invoice yields a consistent invoice. -/
theorem C2_derived_totals_witness :
    invariantC2 ⟨1, "OPL-0001-26", some "Acme", none, none, none, 2, 0, 0,
      "Pending", some ⟨2026, 3, 1⟩, 7, [⟨"A", 1, 2, 2⟩]⟩ :=
  C2_derived_totals.2.2.1 ⟨1, "admin"⟩ 1
    ⟨none, none, none, none, none, none, none⟩
    ⟨[⟨1, "OPL-0001-26", some "Acme", none, none, none, 2, 0, 0,
       "Pending", some ⟨2026, 3, 1⟩, 7, [⟨"A", 1, 2, 2⟩]⟩], []⟩
    ⟨1, "OPL-0001-26", some "Acme", none, none, none, 2, 0, 0,
     "Pending", some ⟨2026, 3, 1⟩, 7, [⟨"A", 1, 2, 2⟩]⟩
    ⟨[⟨1, "OPL-0001-26", some "Acme", none, none, none, 2, 0, 0,
       "Pending", some ⟨2026, 3, 1⟩, 7, [⟨"A", 1, 2, 2⟩]⟩], []⟩
    (by decide)
    (by
      intro inv0 h0
      rcases List.mem_singleton.mp h0 with rfl
      refine ⟨?_, ?_, ?_⟩
      · intro it hit
        rcases List.mem_singleton.mp hit with rfl
        norm_num
      · norm_num [subtotalOf]
      · norm_num [subtotalOf])

/-- An authorized identity (admin or owner) never trips the ownership
guard. -/
lemma not_guard_of_authorized {u : User} {inv : Invoice}
    (h : authorized u inv) : ¬ (u.role ≠ "admin" ∧ inv.user_id ≠ u.id) := by
  rintro ⟨h1, h2⟩
  rcases h with h | h
  · exact h1 h
  · exact h2 h

/-- C4: for every invoice whose status is Paid, the API Edit, the API
Delete and the web Edit all leave the store completely unchanged
(whoever the caller is), and an authorized caller receives the
immutable-state error ("Cannot edit/delete a paid invoice"), never a
success. -/
theorem C4_paid_immutable (u : User) (iid : Nat) (req : UpdateReq)
    (form : WebForm) (db : DB) (inv : Invoice)
    (hfind : findInvoice db iid = some inv) (hpaid : inv.status = "Paid") :
    (api_update_invoice u iid req db).2 = db
    ∧ (api_delete_invoice u iid db).2 = db
    ∧ (∀ r db2, web_edit u iid form db = .ok (r, db2) → db2 = db)
    ∧ (authorized u inv →
        (api_update_invoice u iid req db).1
            = .err 400 "Cannot edit a paid invoice"
        ∧ (api_delete_invoice u iid db).1
            = .err 400 "Cannot delete a paid invoice"
        ∧ web_edit u iid form db
            = .ok (⟨["Cannot edit a paid invoice."], "invoices.view"⟩, db)) := by
  refine ⟨?_, ?_, ?_, ?_⟩
  · unfold api_update_invoice
    rw [hfind]
    dsimp only
    split
    · rfl
    · rfl
  · unfold api_delete_invoice
    rw [hfind]
    dsimp only
    split
    · rfl
    · rfl
  · intro r db2 h
    unfold web_edit at h
    rw [hfind] at h
    dsimp only at h
    split at h
    · injection h with h1
      injection h1 with _ h2
      exact h2.symm
    · injection h with h1
      injection h1 with _ h2
      exact h2.symm
  · intro ha
    have hng := not_guard_of_authorized ha
    refine ⟨?_, ?_, ?_⟩
    · unfold api_update_invoice
      rw [hfind]
      dsimp only
      rw [if_neg hng, if_pos hpaid]
    · unfold api_delete_invoice
      rw [hfind]
      dsimp only
      rw [if_neg hng, if_pos hpaid]
    · unfold web_edit
      rw [hfind]
      dsimp only
      rw [if_neg hng, if_pos hpaid]

/-- Witness for C4 at a concrete state: a Paid invoice owned by worker
7; worker 7's API edit and delete and web edit are all rejected with the
immutable-state errors. -/
theorem C4_paid_immutable_witness :
    (api_update_invoice ⟨7, "worker"⟩ 1
        ⟨none, none, none, none, none, none, none⟩
        ⟨[⟨1, "OPL-0001-26", some "Acme", none, none, none, 210, 5, 10,
           "Paid", some ⟨2026, 3, 1⟩, 7, [⟨"Service", 2, 100, 200⟩]⟩], []⟩).1
        = .err 400 "Cannot edit a paid invoice"
    ∧ (api_delete_invoice ⟨7, "worker"⟩ 1
        ⟨[⟨1, "OPL-0001-26", some "Acme", none, none, none, 210, 5, 10,
           "Paid", some ⟨2026, 3, 1⟩, 7, [⟨"Service", 2, 100, 200⟩]⟩], []⟩).1
        = .err 400 "Cannot delete a paid invoice"
    ∧ web_edit ⟨7, "worker"⟩ 1
        ⟨some "Acme", none, none, none, none, [], 0⟩
        ⟨[⟨1, "OPL-0001-26", some "Acme", none, none, none, 210, 5, 10,
           "Paid", some ⟨2026, 3, 1⟩, 7, [⟨"Service", 2, 100, 200⟩]⟩], []⟩
        = .ok (⟨["Cannot edit a paid invoice."], "invoices.view"⟩,
            ⟨[⟨1, "OPL-0001-26", some "Acme", none, none, none, 210, 5, 10,
               "Paid", some ⟨2026, 3, 1⟩, 7, [⟨"Service", 2, 100, 200⟩]⟩], []⟩) :=
  (C4_paid_immutable ⟨7, "worker"⟩ 1
    ⟨none, none, none, none, none, none, none⟩
    ⟨some "Acme", none, none, none, none, [], 0⟩
    ⟨[⟨1, "OPL-0001-26", some "Acme", none, none, none, 210, 5, 10,
       "Paid", some ⟨2026, 3, 1⟩, 7, [⟨"Service", 2, 100, 200⟩]⟩], []⟩
    ⟨1, "OPL-0001-26", some "Acme", none, none, none, 210, 5, 10,
     "Paid", some ⟨2026, 3, 1⟩, 7, [⟨"Service", 2, 100, 200⟩]⟩
    (by decide) rfl).2.2.2 (Or.inr rfl)

/-- C5: paying an already-Paid invoice is a successful no-op in the web
variant — the store (hence the receipt collection) is unchanged for any
caller; for an authorized caller the response is a plain dashboard
redirect with no flash and no new receipt — while the API variant fails
with "Invoice is already paid" leaving the store unchanged.  A first,
successful Pay of a non-Paid invoice appends exactly one receipt and
marks the stored invoice Paid (so any second Pay hits the no-op/error
path above); hence at most one receipt is ever created per invoice. -/
theorem C5_second_pay_no_receipt (u : User) (iid : Nat) (db : DB)
    (inv : Invoice) (n m : Nat)
    (hfind : findInvoice db iid = some inv) :
    (inv.status = "Paid" →
      (web_pay u iid db n).2 = db
      ∧ (authorized u inv →
          (web_pay u iid db n).1
            = ⟨[], if u.role = "admin" then "admin.dashboard" else "worker.dashboard"⟩
          ∧ api_pay_invoice u iid db m = (.err 400 "Invoice is already paid", db)))
    ∧ (inv.status ≠ "Paid" → authorized u inv →
      (web_pay u iid db n).2.receipts
          = db.receipts ++ [⟨inv.id, inv.amount, receiptNumber n⟩]
      ∧ (api_pay_invoice u iid db m).2.receipts
          = db.receipts ++ [⟨inv.id, inv.amount, receiptNumber m⟩]
      ∧ findInvoice (web_pay u iid db n).2 iid = some { inv with status := "Paid" }
      ∧ findInvoice (api_pay_invoice u iid db m).2 iid
          = some { inv with status := "Paid" }) := by
  constructor
  · intro hpaid
    constructor
    · unfold web_pay
      rw [hfind]
      dsimp only
      split
      · rfl
      · rw [if_neg (not_not_intro hpaid)]
    · intro ha
      have hng := not_guard_of_authorized ha
      constructor
      · unfold web_pay
        rw [hfind]
        dsimp only
        rw [if_neg hng, if_neg (not_not_intro hpaid)]
      · unfold api_pay_invoice
        rw [hfind]
        dsimp only
        rw [if_neg hng, if_pos hpaid]
  · intro hpend ha
    have hng := not_guard_of_authorized ha
    have hid0 := findInvoice_id hfind
    have hid : ({ inv with status := "Paid" } : Invoice).id = iid := hid0
    refine ⟨?_, ?_, ?_, ?_⟩
    · unfold web_pay
      rw [hfind]
      dsimp only
      rw [if_neg hng, if_pos hpend]
      rfl
    · unfold api_pay_invoice
      rw [hfind]
      dsimp only
      rw [if_neg hng, if_neg hpend]
      rfl
    · have hsave := findInvoice_saveInvoice hfind hid
      unfold web_pay
      rw [hfind]
      dsimp only
      rw [if_neg hng, if_pos hpend]
      exact hsave
    · have hsave := findInvoice_saveInvoice hfind hid
      unfold api_pay_invoice
      rw [hfind]
      dsimp only
      rw [if_neg hng, if_neg hpend]
      exact hsave

/-- Witness for C5 at a concrete state: a Paid invoice owned by worker
7; worker 7's second web Pay leaves the store unchanged and flashes
nothing, and the API Pay returns the already-paid error. -/
theorem C5_second_pay_no_receipt_witness :
    (web_pay ⟨7, "worker"⟩ 1
        ⟨[⟨1, "OPL-0001-26", some "Acme", none, none, none, 210, 5, 10,
           "Paid", some ⟨2026, 3, 1⟩, 7, [⟨"Service", 2, 100, 200⟩]⟩],
         [⟨1, 210, "REC-0AF31B2C"⟩]⟩ 99).2
      = ⟨[⟨1, "OPL-0001-26", some "Acme", none, none, none, 210, 5, 10,
           "Paid", some ⟨2026, 3, 1⟩, 7, [⟨"Service", 2, 100, 200⟩]⟩],
         [⟨1, 210, "REC-0AF31B2C"⟩]⟩
    ∧ (web_pay ⟨7, "worker"⟩ 1
        ⟨[⟨1, "OPL-0001-26", some "Acme", none, none, none, 210, 5, 10,
           "Paid", some ⟨2026, 3, 1⟩, 7, [⟨"Service", 2, 100, 200⟩]⟩],
         [⟨1, 210, "REC-0AF31B2C"⟩]⟩ 99).1
      = ⟨[], if ("worker" : String) = "admin" then "admin.dashboard"
             else "worker.dashboard"⟩
    ∧ api_pay_invoice ⟨7, "worker"⟩ 1
        ⟨[⟨1, "OPL-0001-26", some "Acme", none, none, none, 210, 5, 10,
           "Paid", some ⟨2026, 3, 1⟩, 7, [⟨"Service", 2, 100, 200⟩]⟩],
         [⟨1, 210, "REC-0AF31B2C"⟩]⟩ 99
      = (.err 400 "Invoice is already paid",
         ⟨[⟨1, "OPL-0001-26", some "Acme", none, none, none, 210, 5, 10,
            "Paid", some ⟨2026, 3, 1⟩, 7, [⟨"Service", 2, 100, 200⟩]⟩],
          [⟨1, 210, "REC-0AF31B2C"⟩]⟩) := by
  have h := (C5_second_pay_no_receipt ⟨7, "worker"⟩ 1
    ⟨[⟨1, "OPL-0001-26", some "Acme", none, none, none, 210, 5, 10,
       "Paid", some ⟨2026, 3, 1⟩, 7, [⟨"Service", 2, 100, 200⟩]⟩],
     [⟨1, 210, "REC-0AF31B2C"⟩]⟩
    ⟨1, "OPL-0001-26", some "Acme", none, none, none, 210, 5, 10,
     "Paid", some ⟨2026, 3, 1⟩, 7, [⟨"Service", 2, 100, 200⟩]⟩
    99 99 (by decide)).1 rfl
  exact ⟨h.1, (h.2 (Or.inr rfl)).1, (h.2 (Or.inr rfl)).2⟩

/-- C6: a successful Pay of a non-Paid invoice (API or web variant)
persists the invoice with status Paid, appends exactly one receipt whose
`amount_paid` is the invoice's amount at pay time and whose number is
`REC-` followed by 8 uppercase hex characters; and no Edit (API or web)
ever touches the receipts collection afterwards, so the snapshot cannot
be altered by later changes to the invoice. -/
theorem C6_pay_issues_receipt (u : User) (iid : Nat) (db : DB)
    (inv : Invoice) (n : Nat)
    (hfind : findInvoice db iid = some inv) (hauth : authorized u inv)
    (hpend : inv.status ≠ "Paid") :
    (api_pay_invoice u iid db n).1
        = .ok ({ inv with status := "Paid" }, ⟨inv.id, inv.amount, receiptNumber n⟩)
    ∧ (api_pay_invoice u iid db n).2.receipts
        = db.receipts ++ [⟨inv.id, inv.amount, receiptNumber n⟩]
    ∧ findInvoice (api_pay_invoice u iid db n).2 iid
        = some { inv with status := "Paid" }
    ∧ (web_pay u iid db n).2.receipts
        = db.receipts ++ [⟨inv.id, inv.amount, receiptNumber n⟩]
    ∧ recFormatOk (receiptNumber n)
    ∧ (∀ u2 iid2 req2 db3,
        (api_update_invoice u2 iid2 req2 db3).2.receipts = db3.receipts)
    ∧ (∀ u2 iid2 form2 db3 r db4,
        web_edit u2 iid2 form2 db3 = .ok (r, db4) →
        db4.receipts = db3.receipts) := by
  have hng := not_guard_of_authorized hauth
  have hid0 := findInvoice_id hfind
  have hid : ({ inv with status := "Paid" } : Invoice).id = iid := hid0
  refine ⟨?_, ?_, ?_, ?_, receiptNumber_format n, api_update_receipts, ?_⟩
  · unfold api_pay_invoice
    rw [hfind]
    dsimp only
    rw [if_neg hng, if_neg hpend]
  · unfold api_pay_invoice
    rw [hfind]
    dsimp only
    rw [if_neg hng, if_neg hpend]
    rfl
  · have hsave := findInvoice_saveInvoice hfind hid
    unfold api_pay_invoice
    rw [hfind]
    dsimp only
    rw [if_neg hng, if_neg hpend]
    exact hsave
  · unfold web_pay
    rw [hfind]
    dsimp only
    rw [if_neg hng, if_pos hpend]
    rfl
  · intro u2 iid2 form2 db3 r db4 h
    exact web_edit_receipts u2 iid2 form2 db3 r db4 h

/-- Witness for C6 at a concrete state: worker 7 pays their Pending
invoice through the API; the response carries the Paid invoice and a
receipt snapshotting amount 210 with number `REC-DEADBEEF`. -/
theorem C6_pay_issues_receipt_witness :
    (api_pay_invoice ⟨7, "worker"⟩ 1
        ⟨[⟨1, "OPL-0001-26", some "Acme", none, none, none, 210, 5, 10,
           "Pending", some ⟨2026, 3, 1⟩, 7, [⟨"Service", 2, 100, 200⟩]⟩], []⟩
        3735928559).1
      = .ok (⟨1, "OPL-0001-26", some "Acme", none, none, none, 210, 5, 10,
              "Paid", some ⟨2026, 3, 1⟩, 7, [⟨"Service", 2, 100, 200⟩]⟩,
             ⟨1, 210, receiptNumber 3735928559⟩)
    ∧ recFormatOk (receiptNumber 3735928559) := by
  have h := C6_pay_issues_receipt ⟨7, "worker"⟩ 1
    ⟨[⟨1, "OPL-0001-26", some "Acme", none, none, none, 210, 5, 10,
       "Pending", some ⟨2026, 3, 1⟩, 7, [⟨"Service", 2, 100, 200⟩]⟩], []⟩
    ⟨1, "OPL-0001-26", some "Acme", none, none, none, 210, 5, 10,
     "Pending", some ⟨2026, 3, 1⟩, 7, [⟨"Service", 2, 100, 200⟩]⟩
    3735928559 (by decide) (Or.inr rfl) (by decide)
  exact ⟨h.1, h.2.2.2.2.1⟩

/-- C7: on an existing invoice, an admin identity is never rejected by
the ownership check of any operation (API get/update/delete/pay, web
view/edit/pay); a non-admin identity whose id differs from
`invoice.user_id` is always rejected — with a 403 "Access denied" on the
API and a flash-plus-redirect on the web — and the store is left
unchanged, never a silent no-op. -/
theorem C7_ownership_check (u : User) (iid : Nat) (req : UpdateReq)
    (form : WebForm) (db : DB) (inv : Invoice) (n : Nat)
    (hfind : findInvoice db iid = some inv) :
    (u.role = "admin" →
      (api_get_invoice u iid db ≠ .err 403 "Access denied")
      ∧ (api_update_invoice u iid req db).1 ≠ .err 403 "Access denied"
      ∧ (api_delete_invoice u iid db).1 ≠ .err 403 "Access denied"
      ∧ (api_pay_invoice u iid db n).1 ≠ .err 403 "Access denied"
      ∧ (web_view u iid db).flashes ≠ ["You can only view your own invoices."]
      ∧ (∀ r db2, web_edit u iid form db = .ok (r, db2) →
          r.flashes ≠ ["You can only edit your own invoices."])
      ∧ (web_pay u iid db n).1.flashes
          ≠ ["You can only manage your own invoices."])
    ∧ (u.role ≠ "admin" → inv.user_id ≠ u.id →
      api_get_invoice u iid db = .err 403 "Access denied"
      ∧ api_update_invoice u iid req db = (.err 403 "Access denied", db)
      ∧ api_delete_invoice u iid db = (.err 403 "Access denied", db)
      ∧ api_pay_invoice u iid db n = (.err 403 "Access denied", db)
      ∧ web_view u iid db
          = ⟨["You can only view your own invoices."], "worker.dashboard"⟩
      ∧ web_edit u iid form db
          = .ok (⟨["You can only edit your own invoices."], "worker.dashboard"⟩, db)
      ∧ web_pay u iid db n
          = (⟨["You can only manage your own invoices."], "worker.dashboard"⟩, db)) := by
  constructor
  · intro hadmin
    have hng : ¬ (u.role ≠ "admin" ∧ inv.user_id ≠ u.id) := by
      rintro ⟨h1, _⟩; exact h1 hadmin
    refine ⟨?_, ?_, ?_, ?_, ?_, ?_, ?_⟩
    · unfold api_get_invoice
      rw [hfind]
      dsimp only
      rw [if_neg hng]
      intro h
      exact ApiResult.noConfusion h
    · unfold api_update_invoice
      rw [hfind]
      dsimp only
      rw [if_neg hng]
      split
      · intro h
        injection h with _ hmsg
        exact absurd hmsg (by decide)
      · intro h
        exact ApiResult.noConfusion h
    · unfold api_delete_invoice
      rw [hfind]
      dsimp only
      rw [if_neg hng]
      split
      · intro h
        injection h with _ hmsg
        exact absurd hmsg (by decide)
      · intro h
        exact ApiResult.noConfusion h
    · unfold api_pay_invoice
      rw [hfind]
      dsimp only
      rw [if_neg hng]
      split
      · intro h
        injection h with _ hmsg
        exact absurd hmsg (by decide)
      · intro h
        exact ApiResult.noConfusion h
    · unfold web_view
      rw [hfind]
      dsimp only
      rw [if_neg hng]
      decide
    · intro r db2 h
      unfold web_edit at h
      rw [hfind] at h
      dsimp only at h
      rw [if_neg hng] at h
      split at h
      · injection h with h1
        injection h1 with h2 _
        rw [← h2]
        decide
      · split at h
        · injection h with h1
          injection h1 with h2 _
          rw [← h2]
          decide
        · cases h
    · unfold web_pay
      rw [hfind]
      dsimp only
      rw [if_neg hng]
      split
      · exact (by decide :
          (["Invoice paid and receipt generated!"] : List String)
            ≠ ["You can only manage your own invoices."])
      · exact (by decide :
          ([] : List String) ≠ ["You can only manage your own invoices."])
  · intro hrole huid
    have hg : u.role ≠ "admin" ∧ inv.user_id ≠ u.id := ⟨hrole, huid⟩
    refine ⟨?_, ?_, ?_, ?_, ?_, ?_, ?_⟩
    · unfold api_get_invoice
      rw [hfind]
      dsimp only
      rw [if_pos hg]
    · unfold api_update_invoice
      rw [hfind]
      dsimp only
      rw [if_pos hg]
    · unfold api_delete_invoice
      rw [hfind]
      dsimp only
      rw [if_pos hg]
    · unfold api_pay_invoice
      rw [hfind]
      dsimp only
      rw [if_pos hg]
    · unfold web_view
      rw [hfind]
      dsimp only
      rw [if_pos hg]
    · unfold web_edit
      rw [hfind]
      dsimp only
      rw [if_pos hg]
    · unfold web_pay
      rw [hfind]
      dsimp only
      rw [if_pos hg]

/-- Witness for C7 at a concrete state: worker 9 acting on worker 7's
invoice is rejected with 403 / flash-redirect and the store is
unchanged; the admin's views are never the denied response. -/
theorem C7_ownership_check_witness :
    (api_get_invoice ⟨1, "admin"⟩ 1
        ⟨[⟨1, "OPL-0001-26", some "Acme", none, none, none, 210, 5, 10,
           "Pending", some ⟨2026, 3, 1⟩, 7, [⟨"Service", 2, 100, 200⟩]⟩], []⟩
        ≠ .err 403 "Access denied")
    ∧ api_get_invoice ⟨9, "worker"⟩ 1
        ⟨[⟨1, "OPL-0001-26", some "Acme", none, none, none, 210, 5, 10,
           "Pending", some ⟨2026, 3, 1⟩, 7, [⟨"Service", 2, 100, 200⟩]⟩], []⟩
        = .err 403 "Access denied"
    ∧ web_pay ⟨9, "worker"⟩ 1
        ⟨[⟨1, "OPL-0001-26", some "Acme", none, none, none, 210, 5, 10,
           "Pending", some ⟨2026, 3, 1⟩, 7, [⟨"Service", 2, 100, 200⟩]⟩], []⟩ 99
        = (⟨["You can only manage your own invoices."], "worker.dashboard"⟩,
           ⟨[⟨1, "OPL-0001-26", some "Acme", none, none, none, 210, 5, 10,
              "Pending", some ⟨2026, 3, 1⟩, 7, [⟨"Service", 2, 100, 200⟩]⟩], []⟩) := by
  have hadm := (C7_ownership_check ⟨1, "admin"⟩ 1
    ⟨none, none, none, none, none, none, none⟩
    ⟨some "Acme", none, none, none, none, [], 0⟩
    ⟨[⟨1, "OPL-0001-26", some "Acme", none, none, none, 210, 5, 10,
       "Pending", some ⟨2026, 3, 1⟩, 7, [⟨"Service", 2, 100, 200⟩]⟩], []⟩
    ⟨1, "OPL-0001-26", some "Acme", none, none, none, 210, 5, 10,
     "Pending", some ⟨2026, 3, 1⟩, 7, [⟨"Service", 2, 100, 200⟩]⟩
    99 (by decide)).1 rfl
  have hwrk := (C7_ownership_check ⟨9, "worker"⟩ 1
    ⟨none, none, none, none, none, none, none⟩
    ⟨some "Acme", none, none, none, none, [], 0⟩
    ⟨[⟨1, "OPL-0001-26", some "Acme", none, none, none, 210, 5, 10,
       "Pending", some ⟨2026, 3, 1⟩, 7, [⟨"Service", 2, 100, 200⟩]⟩], []⟩
    ⟨1, "OPL-0001-26", some "Acme", none, none, none, 210, 5, 10,
     "Pending", some ⟨2026, 3, 1⟩, 7, [⟨"Service", 2, 100, 200⟩]⟩
    99 (by decide)).2 (by decide) (by decide)
  exact ⟨hadm.1, hwrk.1, hwrk.2.2.2.2.2.2⟩

/-- C8 counterexample: the claim says a Create with an empty client name
or zero surviving items fails and persists nothing in both variants; at
this concrete input the web `create` is given an empty client name and
an empty item list and still persists an invoice (one stored invoice
with client name `""` and zero items). -/
theorem C8_counterexample :
    (web_create ⟨7, "worker"⟩
        ⟨some "", none, none, none, some ⟨2026, 3, 1⟩, [], 0⟩
        ⟨2026, 3, 1⟩ ⟨[], []⟩ 1).toOption.map
      (fun p => p.2.invoices.map (fun i => (i.client_name, i.items.length, i.status)))
      = some [(some "", 0, "Pending")] := by
  decide

/-- C8 (amended): the validation belongs to the API variant only: the
API Create fails with 400 and an unchanged store when the stripped
client name is empty ("client_name is required"), when the raw item list
is empty ("At least one item is required"), or when no entry survives
filtering ("No valid items provided"); the web-route Create performs
neither check and persists the new invoice whenever the client-name
field is present in the form (even blank, with zero items). -/
theorem C8_create_validation :
    (∀ u req db n, pyStrip req.client_name = "" →
        api_create_invoice u req db n = (.err 400 "client_name is required", db))
    ∧ (∀ u req db n, pyStrip req.client_name ≠ "" → req.items = [] →
        api_create_invoice u req db n
          = (.err 400 "At least one item is required", db))
    ∧ (∀ u req db n, pyStrip req.client_name ≠ "" → req.items ≠ [] →
        itemsApi req.items = [] →
        api_create_invoice u req db n = (.err 400 "No valid items provided", db))
    ∧ (∀ u form today db n, form.client_name.isSome = true →
        ∃ inv r, web_create u form today db n
          = .ok (r, { db with invoices := db.invoices ++ [inv] })) := by
  refine ⟨?_, ?_, ?_, ?_⟩
  · intro u req db n h
    simp only [api_create_invoice]
    rw [if_pos h]
  · intro u req db n h1 h2
    simp only [api_create_invoice]
    rw [if_neg h1, if_pos h2]
  · intro u req db n h1 h2 h3
    simp only [api_create_invoice]
    rw [if_neg h1, if_neg h2, if_pos h3]
  · intro u form today db n h
    simp only [web_create, saveAllowed]
    rw [if_pos h]
    exact ⟨_, _, rfl⟩

/-- Witness for C8 at concrete inputs: a blank client name is rejected
by the API Create with an unchanged store, and the web Create with a
present (blank) name persists an invoice. -/
theorem C8_create_validation_witness :
    api_create_invoice ⟨7, "worker"⟩
        ⟨"  ", "", "", "", ⟨2026, 3, 1⟩, 0, [⟨"Service", 2, 100⟩]⟩ ⟨[], []⟩ 1
      = (.err 400 "client_name is required", ⟨[], []⟩)
    ∧ ∃ inv r, web_create ⟨7, "worker"⟩
        ⟨some "", none, none, none, some ⟨2026, 3, 1⟩, [], 0⟩
        ⟨2026, 3, 1⟩ ⟨[], []⟩ 1
      = .ok (r, ⟨[] ++ [inv], []⟩) :=
  ⟨C8_create_validation.1 ⟨7, "worker"⟩
    ⟨"  ", "", "", "", ⟨2026, 3, 1⟩, 0, [⟨"Service", 2, 100⟩]⟩ ⟨[], []⟩ 1
    (by decide),
   C8_create_validation.2.2.2 ⟨7, "worker"⟩
    ⟨some "", none, none, none, some ⟨2026, 3, 1⟩, [], 0⟩
    ⟨2026, 3, 1⟩ ⟨[], []⟩ 1 rfl⟩

/-- The items/tax recomputation of the API update never changes the
contact fields or the due date. -/
lemma recomputeItems_contact (inv : Invoice) (req : UpdateReq) :
    (recomputeItems inv req).client_name = inv.client_name
    ∧ (recomputeItems inv req).client_email = inv.client_email
    ∧ (recomputeItems inv req).client_phone = inv.client_phone
    ∧ (recomputeItems inv req).client_address = inv.client_address
    ∧ (recomputeItems inv req).due_date = inv.due_date := by
  unfold recomputeItems
  cases hri : req.items with
  | some entries => exact ⟨rfl, rfl, rfl, rfl, rfl⟩
  | none =>
    cases hrt : req.tax_rate with
    | some r => exact ⟨rfl, rfl, rfl, rfl, rfl⟩
    | none => exact ⟨rfl, rfl, rfl, rfl, rfl⟩

/-- C9 counterexample: the claim says that in an Edit of a non-Paid
invoice, when items are not supplied the totals are recomputed from the
existing items, and omitted fields (such as the client e-mail) retain
their previous values; at this concrete input the web `edit` is given a
form without item rows and without a client e-mail, on an invoice that
has one item and e-mail `a@b.c` — the result persists the invoice with
its e-mail wiped to `None` and its item list emptied. -/
theorem C9_counterexample :
    (web_edit ⟨7, "worker"⟩ 1
        ⟨some "Acme", none, none, none, none, [], 5⟩
        ⟨[⟨1, "OPL-0001-26", some "Acme", some "a@b.c", none, none, 210, 5, 10,
           "Pending", some ⟨2026, 3, 1⟩, 7, [⟨"Service", 2, 100, 200⟩]⟩], []⟩).toOption.map
      (fun p => p.2.invoices.map (fun i => (i.client_email, i.items.length)))
      = some [(none, 0)] := by
  decide

/-- C9 (amended): the stated partial-update semantics hold for the API
Edit of a non-Paid invoice: a present `items` key replaces the item list
wholesale with the filtered entries and recomputes the totals (with the
tax rate defaulting to the stored one); with no `items` key the totals
are recomputed from the existing items exactly when `tax_rate` is
present, and are untouched otherwise; every omitted field retains its
previous value; and the result is saved.  The web Edit does not follow
this contract: it always overwrites the contact fields and the item list
from the form (the counterexample), keeping only a blank due date. -/
theorem C9_api_patch_semantics (u : User) (iid : Nat) (req : UpdateReq)
    (db : DB) (inv inv2 : Invoice) (db2 : DB)
    (hfind : findInvoice db iid = some inv)
    (h : api_update_invoice u iid req db = (.ok inv2, db2)) :
    (∀ l, req.items = some l →
        inv2.items = itemsApi l
        ∧ inv2.tax_rate = req.tax_rate.getD inv.tax_rate
        ∧ inv2.tax_amount = subtotalOf (itemsApi l) * (inv2.tax_rate / 100)
        ∧ inv2.amount = subtotalOf (itemsApi l) + inv2.tax_amount)
    ∧ (req.items = none → ∀ r, req.tax_rate = some r →
        inv2.items = inv.items
        ∧ inv2.tax_rate = r
        ∧ inv2.tax_amount = subtotalOf inv.items * (r / 100)
        ∧ inv2.amount = subtotalOf inv.items + inv2.tax_amount)
    ∧ (req.items = none → req.tax_rate = none →
        inv2.items = inv.items ∧ inv2.tax_rate = inv.tax_rate
        ∧ inv2.tax_amount = inv.tax_amount ∧ inv2.amount = inv.amount)
    ∧ (req.client_name = none → inv2.client_name = inv.client_name)
    ∧ (req.client_email = none → inv2.client_email = inv.client_email)
    ∧ (req.client_phone = none → inv2.client_phone = inv.client_phone)
    ∧ (req.client_address = none → inv2.client_address = inv.client_address)
    ∧ (req.due_date = none → inv2.due_date = inv.due_date)
    ∧ db2 = saveInvoice db inv2 := by
  have hinv2 : inv2 = recomputeItems (patchContact inv req) req
      ∧ db2 = saveInvoice db inv2 := by
    simp only [api_update_invoice] at h
    rw [hfind] at h
    dsimp only at h
    split at h
    · injection h with h1 _
      exact ApiResult.noConfusion h1
    · split at h
      · injection h with h1 _
        exact ApiResult.noConfusion h1
      · injection h with h1 h2
        injection h1 with h1
        subst h1
        exact ⟨rfl, h2.symm⟩
  obtain ⟨hi2, hdb2⟩ := hinv2
  subst hi2
  refine ⟨?_, ?_, ?_, ?_, ?_, ?_, ?_, ?_, hdb2⟩
  · intro l hl
    unfold recomputeItems
    rw [hl]
    dsimp only
    exact ⟨rfl, rfl, rfl, rfl⟩
  · intro hl r hr
    unfold recomputeItems
    rw [hl, hr]
    dsimp only
    exact ⟨rfl, rfl, rfl, rfl⟩
  · intro hl hr
    unfold recomputeItems
    rw [hl, hr]
    dsimp only
    exact ⟨rfl, rfl, rfl, rfl⟩
  · intro hcn
    have hc := (recomputeItems_contact (patchContact inv req) req).1
    rw [hc]
    simp only [patchContact, hcn]
  · intro hce
    have hc := (recomputeItems_contact (patchContact inv req) req).2.1
    rw [hc]
    simp only [patchContact, hce]
  · intro hcp
    have hc := (recomputeItems_contact (patchContact inv req) req).2.2.1
    rw [hc]
    simp only [patchContact, hcp]
  · intro hca
    have hc := (recomputeItems_contact (patchContact inv req) req).2.2.2.1
    rw [hc]
    simp only [patchContact, hca]
  · intro hdd
    have hc := (recomputeItems_contact (patchContact inv req) req).2.2.2.2
    rw [hc]
    simp only [patchContact, hdd]

/-- Witness for C9 at a concrete state: an API update carrying only a
new client name (no items, no tax rate, no contact keys) leaves the
financial fields and the client e-mail exactly as stored. -/
theorem C9_api_patch_semantics_witness :
    ((⟨1, "OPL-0001-26", some "NewName", some "a@b.c", none, none, 210, 5, 10,
       "Pending", some ⟨2026, 3, 1⟩, 7, [⟨"Service", 2, 100, 200⟩]⟩ : Invoice).items
        = (⟨1, "OPL-0001-26", some "Acme", some "a@b.c", none, none, 210, 5, 10,
           "Pending", some ⟨2026, 3, 1⟩, 7, [⟨"Service", 2, 100, 200⟩]⟩ : Invoice).items
      ∧ (⟨1, "OPL-0001-26", some "NewName", some "a@b.c", none, none, 210, 5, 10,
          "Pending", some ⟨2026, 3, 1⟩, 7, [⟨"Service", 2, 100, 200⟩]⟩ : Invoice).tax_rate
        = (⟨1, "OPL-0001-26", some "Acme", some "a@b.c", none, none, 210, 5, 10,
           "Pending", some ⟨2026, 3, 1⟩, 7, [⟨"Service", 2, 100, 200⟩]⟩ : Invoice).tax_rate
      ∧ (⟨1, "OPL-0001-26", some "NewName", some "a@b.c", none, none, 210, 5, 10,
          "Pending", some ⟨2026, 3, 1⟩, 7, [⟨"Service", 2, 100, 200⟩]⟩ : Invoice).tax_amount
        = (⟨1, "OPL-0001-26", some "Acme", some "a@b.c", none, none, 210, 5, 10,
           "Pending", some ⟨2026, 3, 1⟩, 7, [⟨"Service", 2, 100, 200⟩]⟩ : Invoice).tax_amount
      ∧ (⟨1, "OPL-0001-26", some "NewName", some "a@b.c", none, none, 210, 5, 10,
          "Pending", some ⟨2026, 3, 1⟩, 7, [⟨"Service", 2, 100, 200⟩]⟩ : Invoice).amount
        = (⟨1, "OPL-0001-26", some "Acme", some "a@b.c", none, none, 210, 5, 10,
           "Pending", some ⟨2026, 3, 1⟩, 7, [⟨"Service", 2, 100, 200⟩]⟩ : Invoice).amount)
    ∧ (⟨1, "OPL-0001-26", some "NewName", some "a@b.c", none, none, 210, 5, 10,
        "Pending", some ⟨2026, 3, 1⟩, 7, [⟨"Service", 2, 100, 200⟩]⟩ : Invoice).client_email
      = (⟨1, "OPL-0001-26", some "Acme", some "a@b.c", none, none, 210, 5, 10,
         "Pending", some ⟨2026, 3, 1⟩, 7, [⟨"Service", 2, 100, 200⟩]⟩ : Invoice).client_email := by
  have h := C9_api_patch_semantics ⟨7, "worker"⟩ 1
    ⟨some "NewName", none, none, none, none, none, none⟩
    ⟨[⟨1, "OPL-0001-26", some "Acme", some "a@b.c", none, none, 210, 5, 10,
       "Pending", some ⟨2026, 3, 1⟩, 7, [⟨"Service", 2, 100, 200⟩]⟩], []⟩
    ⟨1, "OPL-0001-26", some "Acme", some "a@b.c", none, none, 210, 5, 10,
     "Pending", some ⟨2026, 3, 1⟩, 7, [⟨"Service", 2, 100, 200⟩]⟩
    ⟨1, "OPL-0001-26", some "NewName", some "a@b.c", none, none, 210, 5, 10,
     "Pending", some ⟨2026, 3, 1⟩, 7, [⟨"Service", 2, 100, 200⟩]⟩
    ⟨[⟨1, "OPL-0001-26", some "NewName", some "a@b.c", none, none, 210, 5, 10,
       "Pending", some ⟨2026, 3, 1⟩, 7, [⟨"Service", 2, 100, 200⟩]⟩], []⟩
    (by decide) (by decide)
  exact ⟨h.2.2.1 rfl rfl, h.2.2.2.2.1 rfl⟩

/-- C10: an API Edit of a non-Paid invoice whose supplied items list is
empty or entirely filtered out succeeds — persisting the invoice with an
empty item list, tax_amount 0 and amount 0 — while an API Create with
the same zero-surviving-items input is rejected with 400; the minimum-
one-item rule is enforced only at creation. -/
theorem C10_edit_accepts_zero_items (u : User) (iid : Nat) (req : UpdateReq)
    (db : DB) (inv : Invoice) (l : List RawItem)
    (hfind : findInvoice db iid = some inv) (hauth : authorized u inv)
    (hnp : inv.status ≠ "Paid") (hitems : req.items = some l)
    (hempty : itemsApi l = []) :
    (∃ inv2, api_update_invoice u iid req db = (.ok inv2, saveInvoice db inv2)
      ∧ inv2.items = [] ∧ inv2.tax_amount = 0 ∧ inv2.amount = 0)
    ∧ (∀ u2 req2 db2 n, pyStrip req2.client_name ≠ "" → req2.items = l →
        l ≠ [] →
        api_create_invoice u2 req2 db2 n
          = (.err 400 "No valid items provided", db2)) := by
  have hng := not_guard_of_authorized hauth
  constructor
  · unfold api_update_invoice
    rw [hfind]
    dsimp only
    rw [if_neg hng, if_neg hnp]
    refine ⟨_, rfl, ?_, ?_, ?_⟩
    · unfold recomputeItems
      rw [hitems]
      dsimp only
      exact hempty
    · unfold recomputeItems
      rw [hitems]
      dsimp only
      rw [hempty]
      simp [subtotalOf]
    · unfold recomputeItems
      rw [hitems]
      dsimp only
      rw [hempty]
      simp [subtotalOf]
  · intro u2 req2 db2 n h1 h2 h3
    simp only [api_create_invoice]
    rw [if_neg h1, if_neg ?hne, if_pos ?hpos]
    case hne => rw [h2]; exact h3
    case hpos => rw [h2]; exact hempty

/-- Witness for C10 at a concrete state: worker 7 updates their Pending
invoice with one all-invalid item row (quantity 0); the update succeeds
with an emptied item list and zeroed totals, while the API Create given
the same rows is rejected. -/
theorem C10_edit_accepts_zero_items_witness :
    (∃ inv2, api_update_invoice ⟨7, "worker"⟩ 1
        ⟨none, none, none, none, none, some [⟨"Widget", 0, 5⟩], none⟩
        ⟨[⟨1, "OPL-0001-26", some "Acme", none, none, none, 210, 5, 10,
           "Pending", some ⟨2026, 3, 1⟩, 7, [⟨"Service", 2, 100, 200⟩]⟩], []⟩
        = (.ok inv2,
           saveInvoice
             ⟨[⟨1, "OPL-0001-26", some "Acme", none, none, none, 210, 5, 10,
                "Pending", some ⟨2026, 3, 1⟩, 7, [⟨"Service", 2, 100, 200⟩]⟩], []⟩
             inv2)
      ∧ inv2.items = [] ∧ inv2.tax_amount = 0 ∧ inv2.amount = 0)
    ∧ api_create_invoice ⟨7, "worker"⟩
        ⟨"Acme", "", "", "", ⟨2026, 3, 1⟩, 5, [⟨"Widget", 0, 5⟩]⟩ ⟨[], []⟩ 2
        = (.err 400 "No valid items provided", ⟨[], []⟩) := by
  have h := C10_edit_accepts_zero_items ⟨7, "worker"⟩ 1
    ⟨none, none, none, none, none, some [⟨"Widget", 0, 5⟩], none⟩
    ⟨[⟨1, "OPL-0001-26", some "Acme", none, none, none, 210, 5, 10,
       "Pending", some ⟨2026, 3, 1⟩, 7, [⟨"Service", 2, 100, 200⟩]⟩], []⟩
    ⟨1, "OPL-0001-26", some "Acme", none, none, none, 210, 5, 10,
     "Pending", some ⟨2026, 3, 1⟩, 7, [⟨"Service", 2, 100, 200⟩]⟩
    [⟨"Widget", 0, 5⟩]
    (by decide) (Or.inr rfl) (by decide) rfl (by decide)
  exact ⟨h.1, h.2 ⟨7, "worker"⟩
    ⟨"Acme", "", "", "", ⟨2026, 3, 1⟩, 5, [⟨"Widget", 0, 5⟩]⟩ ⟨[], []⟩ 2
    (by decide) rfl (by decide)⟩

end OpalPixel